import Mathlib

/-!
Shallow embedding of the quote-aggregation and fallback-routing core of the
defi-ai-aggregator repository.

Numbers: the source uses JavaScript floating point.  The embedding models the
arithmetic over exact rationals (ℚ); every quantity the claims mention
(prices, amounts, TVLs, timestamps in epoch milliseconds) is a rational or an
integer.  JS `x.toFixed(f)` produces the decimal string of the multiple of
10^(-f) nearest to x, ties toward the larger value; `toFixedQ` returns that
value as a rational and `fixedString` renders it as the decimal string.
Strings that the source immediately re-parses with `parseFloat`
(`outputAmount`, `priceImpact`, `expectedOutput` of quotes) are modelled by
the rational value the string denotes; `NaN` has no rational counterpart, so
amount strings that do not parse to a number are outside the embedding's
domain (see the C1 analysis).

State: the services are process-wide singletons with in-memory caches.  Each
cache is a field of an explicit state value, and every method that mutates a
cache is a function from the old state to the new state.  Asynchrony: the
runtime is a single-threaded event loop, so a sequence of awaited calls is
modelled by sequential state threading; the one place where interleaving is
observable (the rate limiter, claim C8) gets its own small event-loop model.
-/

namespace DefiAgg

/-- `TokenType = keyof typeof APTOS_COINS` (src/unnamed/part_000, constants). -/
inductive Token
  | APT | USDC | USDT | DAI
deriving DecidableEq, Repr

/-- Keys of the `APTOS_DEXES` registry (src/unnamed/part_000, constants). -/
inductive DexKey
  | PANCAKE | LIQUIDSWAP | AUX | THALA | PANORA
deriving DecidableEq, Repr

/-- The fields of an `APTOS_DEXES` entry used by the quoting core. -/
structure DexInfo where
  name : String
  fee : ℚ
  gasEstimate : ℚ
  url : String
deriving DecidableEq, Repr

/-- The `APTOS_DEXES` registry (src/unnamed/part_000, constants). -/
def APTOS_DEXES : DexKey → DexInfo
  | .PANCAKE => ⟨"PancakeSwap", 3/1000, 2/10000, "https://pancakeswap.finance/aptos/swap"⟩
  | .LIQUIDSWAP => ⟨"Liquidswap", 3/1000, 25/100000, "https://liquidswap.com/"⟩
  | .AUX => ⟨"AUX Exchange", 3/1000, 22/100000, "https://aux.exchange/"⟩
  | .THALA => ⟨"Thala", 3/1000, 23/100000, "https://app.thala.fi/swap"⟩
  | .PANORA => ⟨"Panora", 2/1000, 2/10000, "https://app.panora.exchange"⟩

/-- `Object.entries(APTOS_DEXES)` iteration order. -/
def dexKeys : List DexKey := [.PANCAKE, .LIQUIDSWAP, .AUX, .THALA, .PANORA]

/-- Value of JS `x.toFixed(f)`: the multiple of `10^(-f)` nearest to `x`,
ties toward the larger value (ECMA-262 Number.prototype.toFixed step:
"if there are two such n, pick the larger n"). -/
def toFixedQ (f : ℕ) (x : ℚ) : ℚ := ((Int.floor (x * 10 ^ f + 1/2) : ℤ) : ℚ) / 10 ^ f

/-- Decimal-string rendering of `x.toFixed(f)` for the values the claims
inspect (`f > 0`, result well above `-1`, so the JS `"-0"` corner does not
arise). -/
def fixedString (f : ℕ) (x : ℚ) : String :=
  let n : ℤ := Int.floor (x * 10 ^ f + 1/2)
  let sign := if n < 0 then "-" else ""
  let a := n.natAbs
  let ip := a / 10 ^ f
  let fp := a % 10 ^ f
  let fs := toString fp
  let pad := String.mk (List.replicate (f - fs.length) '0')
  sign ++ toString ip ++ (if f = 0 then "" else "." ++ pad ++ fs)

/-! ### Price Cache & Rate Limiter (PriceService, src/services/lendingService.ts) -/

/-- `PriceService.priceCache`: per lowercase symbol, `{price, timestamp}`.
The lowercase key is in bijection with the `Token` symbol. -/
structure PriceState where
  cache : Token → Option (ℚ × ℤ)

/-- `PriceService.CACHE_DURATION` (5 minutes, in ms). -/
def CACHE_DURATION : ℤ := 300000

/-- Outcome of one attempted upstream CoinGecko price fetch per token:
`none` models any failure of `fetchTokenPrice`'s body (network error,
missing/falsy price in the response), `some p` a fetch resolving with `p`. -/
structure PriceFetchEnv where
  fetchPrice : Token → Option ℚ

/-- Static fallback prices used by `getTokenPriceWithCache` when the fetch
fails and no cache entry exists (every `Token` has one, so the final
`throw new Error` of the source is unreachable for supported tokens). -/
def fallbackPrice : Token → ℚ
  | .APT => 27/4
  | _ => 1

/-- `PriceService.getTokenPriceWithCache` (src/services/lendingService.ts,
lines 212-249).  Returns `(price, new cache state, whether an upstream API
call was issued)`.  The rate limiter only delays the fetch; it does not
change any value, so it is omitted here and modelled separately for C8. -/
def getTokenPriceWithCache (env : PriceFetchEnv) (now : ℤ) (token : Token)
    (st : PriceState) : ℚ × PriceState × Bool :=
  match st.cache token with
  | some (p, ts) =>
    if now - ts < CACHE_DURATION then (p, st, false)
    else
      match env.fetchPrice token with
      | some price =>
        (price, ⟨fun t => if t = token then some (price, now) else st.cache t⟩, true)
      | none => (p, st, true)
  | none =>
    match env.fetchPrice token with
    | some price =>
      (price, ⟨fun t => if t = token then some (price, now) else st.cache t⟩, true)
    | none => (fallbackPrice token, st, true)

/-- Well-formed fetch environment: an upstream price API never reports a
negative USD price. -/
def PriceFetchEnv.WF (env : PriceFetchEnv) : Prop :=
  ∀ t p, env.fetchPrice t = some p → 0 ≤ p

/-- Well-formed price cache: cached USD prices are non-negative. -/
def PriceState.WF (st : PriceState) : Prop :=
  ∀ t p ts, st.cache t = some (p, ts) → 0 ≤ p

/-! ### Pool/TVL cache and Synthetic DEX Quoter (DexService, src/unnamed/part_000) -/

/-- The fields of a cached per-DEX liquidity payload that the quoter reads:
`poolData.tvl`.  `none` models a payload without a (truthy-checkable) `tvl`
field. -/
structure PoolData where
  tvl : Option ℚ
deriving DecidableEq, Repr

/-- `DexService.poolCache` (keyed by `dex.name`) plus `poolCacheTimestamp`. -/
structure PoolState where
  poolCache : List (String × PoolData)
  poolCacheTimestamp : ℤ
deriving DecidableEq

/-- `DexService.POOL_CACHE_DURATION` (5 minutes, in ms). -/
def POOL_CACHE_DURATION : ℤ := 300000

/-- Outcome of the per-DEX `axios.get(dex.liquiditySource)` call inside
`fetchPoolData`: `none` models a failed fetch (that DEX contributes no cache
entry), `some pd` a response whose data carries `pd`. -/
structure PoolFetchEnv where
  fetchPool : DexKey → Option PoolData

/-- `Map.get` on the pool cache. -/
def lookupPool (c : List (String × PoolData)) (name : String) : Option PoolData :=
  (c.find? (fun e => e.1 = name)).map (fun e => e.2)

/-- `DexService.fetchPoolData` (src/unnamed/part_000, lines 142-185): reuse a
fresh non-empty cache, otherwise clear and rebuild the whole cache from the
per-DEX fetches that succeeded.  The outer catch only rethrows when the cache
is empty, and nothing inside the modelled body throws (per-DEX failures are
caught and mapped to `null`), so the function is total. -/
def fetchPoolData (env : PoolFetchEnv) (now : ℤ) (st : PoolState) : PoolState :=
  if st.poolCache ≠ [] ∧ now - st.poolCacheTimestamp < POOL_CACHE_DURATION then st
  else
    { poolCache :=
        dexKeys.filterMap fun k => (env.fetchPool k).map fun d => ((APTOS_DEXES k).name, d)
      poolCacheTimestamp := now }

/-- A `DexQuote`, with the decimal strings `outputAmount` (6 dp) and
`priceImpact` (2 dp) represented by the rational value they denote. -/
structure DexQuote where
  dex : DexKey
  dexName : String
  outputAmount : ℚ
  priceImpact : ℚ
  feePercent : ℚ
  dexUrl : String
  gasEstimate : ℚ
deriving DecidableEq, Repr

/-- `poolTVL` as computed in `getDexQuote`: the local starts at `0` and is
assigned only under `if (poolData.tvl)`, so it is the `tvl` field when that
field is present and nonzero (truthy), and `0` otherwise. -/
def poolTVLof (pd : PoolData) : ℚ :=
  match pd.tvl with
  | some t => if t = 0 then 0 else t
  | none => 0

/-- `slippageFactor = Math.min(0.1, amountUsd / (poolTVL || 1000000))`
(src/unnamed/part_000, line 113). -/
def slippageFactor (amountUsd poolTVL : ℚ) : ℚ :=
  min (1/10) (amountUsd / (if poolTVL = 0 then 1000000 else poolTVL))

/-- `DexService.getDexQuote` (src/unnamed/part_000, lines 53-137) after the
two token prices have been resolved.  `log10` abstracts `Math.log10`, which
only enters the liquidity factor; every claim proved below holds for an
arbitrary `log10`.  The falsy-price guard (`!tokenInPrice || !tokenOutPrice`)
and the missing-pool guard return `none` (the source returns `null`). -/
def dexQuoteCore (log10 : ℚ → ℚ) (poolCache : List (String × PoolData))
    (dexKey : DexKey) (amount pIn pOut : ℚ) : Option DexQuote :=
  let dex := APTOS_DEXES dexKey
  if pIn = 0 ∨ pOut = 0 then none
  else
    match lookupPool poolCache dex.name with
    | none => none
    | some pd =>
      let poolTVL := poolTVLof pd
      let liquidityFactor :=
        if poolTVL = 0 then 1 else min 1 (max (9/10) (log10 poolTVL / log10 1000000))
      let perfectOutput := amount * pIn / pOut
      let amountUsd := amount * pIn
      let sf := slippageFactor amountUsd poolTVL
      let afterFeeAmount := amount * (1 - dex.fee)
      let outputAmount := toFixedQ 6 (perfectOutput * liquidityFactor * (1 - sf) * (afterFeeAmount / amount))
      let priceImpact := toFixedQ 2 (sf * 100)
      some { dex := dexKey, dexName := dex.name, outputAmount := outputAmount,
             priceImpact := priceImpact, feePercent := dex.fee * 100,
             dexUrl := dex.url, gasEstimate := dex.gasEstimate }

/-- `DexService.getDexQuote` including the price resolution through
`priceService.getTokenPriceWithCache` (the inner catch that substitutes the
static 6.75/1 prices is unreachable because `getTokenPriceWithCache` never
throws for supported tokens). -/
def getDexQuote (log10 : ℚ → ℚ) (penv : PriceFetchEnv) (now : ℤ)
    (poolCache : List (String × PoolData)) (dexKey : DexKey)
    (tokenIn tokenOut : Token) (amount : ℚ) (ps : PriceState) :
    Option DexQuote × PriceState :=
  let rIn := getTokenPriceWithCache penv now tokenIn ps
  let rOut := getTokenPriceWithCache penv now tokenOut rIn.2.1
  (dexQuoteCore log10 poolCache dexKey amount rIn.1 rOut.1, rOut.2.1)

/-- The `Promise.all` over `Object.entries(APTOS_DEXES)` in
`getAllDexQuotes`, linearised: all five quote tasks run at the same `now`
against the same environment, so the order in which they interleave their
awaited price-cache accesses does not affect any produced value. -/
def quotesLoop (log10 : ℚ → ℚ) (penv : PriceFetchEnv) (now : ℤ)
    (poolCache : List (String × PoolData)) (tokenIn tokenOut : Token)
    (amount : ℚ) : List DexKey → PriceState → List (Option DexQuote) × PriceState
  | [], ps => ([], ps)
  | k :: ks, ps =>
    let r := getDexQuote log10 penv now poolCache k tokenIn tokenOut amount ps
    let rest := quotesLoop log10 penv now poolCache tokenIn tokenOut amount ks r.2
    (r.1 :: rest.1, rest.2)

/-- `DexService.getAllDexQuotes` (src/unnamed/part_000, lines 38-48):
refresh the pool cache if needed, then one quote slot per registered DEX in
registry order. -/
def getAllDexQuotes (log10 : ℚ → ℚ) (penv : PriceFetchEnv) (poolEnv : PoolFetchEnv)
    (now : ℤ) (tokenIn tokenOut : Token) (amount : ℚ)
    (ps : PriceState) (pools : PoolState) :
    List (Option DexQuote) × PriceState × PoolState :=
  let pools1 := fetchPoolData poolEnv now pools
  let r := quotesLoop log10 penv now pools1.poolCache tokenIn tokenOut amount dexKeys ps
  (r.1, r.2, pools1)

/-- Well-formed pool payload: a reported TVL is non-negative. -/
def PoolData.WF (pd : PoolData) : Prop := ∀ t, pd.tvl = some t → 0 ≤ t

/-- Every payload in a pool cache is well-formed. -/
def poolCacheWF (c : List (String × PoolData)) : Prop := ∀ e ∈ c, PoolData.WF e.2

/-- Well-formed pool-cache state. -/
def PoolState.WF (st : PoolState) : Prop := poolCacheWF st.poolCache

/-- Well-formed pool-fetch environment: the liquidity source never reports a
negative TVL. -/
def PoolFetchEnv.WF (env : PoolFetchEnv) : Prop :=
  ∀ k pd, env.fetchPool k = some pd → pd.WF

/-! ### Route Selector (SwapService, src/services/swapService.ts) -/

/-- One entry of `alternativeRoutes`; `expectedOutput` and `priceImpact` are
the values of the decimal strings the source stores. -/
structure AltRoute where
  protocol : String
  expectedOutput : ℚ
  priceImpact : ℚ
  estimatedGas : ℚ
deriving DecidableEq, Repr

/-- The `SwapRoute` result shape, restricted to the fields the claims
mention.  `hasPayload` records whether an aggregator transaction payload is
attached. -/
structure SwapRoute where
  fromToken : Token
  toToken : Token
  fromAmount : ℚ
  expectedOutput : ℚ
  priceImpact : ℚ
  estimatedGas : ℚ
  dex : String
  protocol : String
  hasPayload : Bool
  alternativeRoutes : List AltRoute
deriving DecidableEq, Repr

/-- The JS `Array.prototype.sort` with comparator
`(a, b) => parseFloat(b.outputAmount) - parseFloat(a.outputAmount)`
(descending, stable): insert before the first strictly smaller element. -/
def insertQuoteDesc (q : DexQuote) : List DexQuote → List DexQuote
  | [] => [q]
  | x :: xs => if x.outputAmount < q.outputAmount then q :: x :: xs else x :: insertQuoteDesc q xs

/-- Stable insertion sort realising the descending sort of `validQuotes`. -/
def sortQuotesDesc : List DexQuote → List DexQuote
  | [] => []
  | x :: xs => insertQuoteDesc x (sortQuotesDesc xs)

/-- The body of `SwapService.getFallbackSwapRoute`'s `try` block
(src/services/swapService.ts, lines 183-223): keep the non-null quotes, sort
them descending by `outputAmount`, fail (`throw` → `none`) when none remain,
otherwise the top quote becomes the primary route and the rest become
`alternativeRoutes`. -/
def selectFromQuotes (tokenIn tokenOut : Token) (amount : ℚ)
    (allQuotes : List (Option DexQuote)) : Option SwapRoute :=
  let validQuotes := allQuotes.reduceOption
  match sortQuotesDesc validQuotes with
  | [] => none
  | best :: rest =>
    some { fromToken := tokenIn, toToken := tokenOut, fromAmount := amount,
           expectedOutput := best.outputAmount,
           priceImpact := best.priceImpact,
           estimatedGas := if best.gasEstimate = 0 then 1/5000 else best.gasEstimate,
           dex := best.dexName, protocol := best.dexName, hasPayload := false,
           alternativeRoutes := rest.map fun q =>
             ⟨q.dexName, q.outputAmount, q.priceImpact,
              if q.gasEstimate = 0 then 1/5000 else q.gasEstimate⟩ }

/-- `SwapService.generateFallbackSwapRoute` (src/services/swapService.ts,
lines 238-292).  The price lookups go through
`priceService.getTokenPriceWithCache`, which never throws for supported
tokens, so the catch branch with its static 6.75/1 prices is unreachable;
the `if (cachedInPrice)` truthiness guards keep the default price 1 when a
lookup returns 0. -/
def generateFallbackSwapRoute (penv : PriceFetchEnv) (now : ℤ)
    (tokenIn tokenOut : Token) (amount : ℚ) (ps : PriceState) :
    SwapRoute × PriceState :=
  let rIn := getTokenPriceWithCache penv now tokenIn ps
  let rOut := getTokenPriceWithCache penv now tokenOut rIn.2.1
  let tokenInPrice := if rIn.1 = 0 then 1 else rIn.1
  let tokenOutPrice := if rOut.1 = 0 then 1 else rOut.1
  let expectedOutput := toFixedQ 6 (amount * tokenInPrice / tokenOutPrice)
  ({ fromToken := tokenIn, toToken := tokenOut, fromAmount := amount,
     expectedOutput := expectedOutput,
     priceImpact := 1/2, estimatedGas := 1/5000,
     dex := "PancakeSwap", protocol := "PancakeSwap", hasPayload := false,
     alternativeRoutes :=
       [⟨"Liquidswap", toFixedQ 6 (expectedOutput * (995/1000)), 7/10, 1/4000⟩] },
   rOut.2.1)

/-- `SwapService.getFallbackSwapRoute` (src/services/swapService.ts, lines
178-233): the DEX fan-out tier; on `throw` ("No valid quotes available") the
catch falls through to `generateFallbackSwapRoute`. -/
def getFallbackSwapRoute (log10 : ℚ → ℚ) (penv : PriceFetchEnv)
    (poolEnv : PoolFetchEnv) (now : ℤ) (tokenIn tokenOut : Token) (amount : ℚ)
    (ps : PriceState) (pools : PoolState) : SwapRoute × PriceState × PoolState :=
  let r := getAllDexQuotes log10 penv poolEnv now tokenIn tokenOut amount ps pools
  match selectFromQuotes tokenIn tokenOut amount r.1 with
  | some route => (route, r.2.1, r.2.2)
  | none =>
    let g := generateFallbackSwapRoute penv now tokenIn tokenOut amount r.2.1
    (g.1, g.2, r.2.2)

/-- One route candidate of a Panora `SwapQuote` response (`data.routes[i]`);
`none` fields model absent/falsy response fields that the source replaces by
defaults with `||` / `? :`. -/
structure PanoraRoute where
  name : Option String
  toTokenAmount : Option ℚ
  priceImpact : Option ℚ
  estimatedGas : Option ℚ
deriving DecidableEq, Repr

/-- The `data` object of a Panora `SwapQuote` response. -/
structure PanoraData where
  toTokenAmount : Option ℚ
  priceImpact : Option ℚ
  estimatedGas : Option ℚ
  hasPayload : Bool
  routes : List PanoraRoute
deriving DecidableEq, Repr

/-- The network-dependent inputs of one `getBestSwapRoute` call.  `panora =
none` models every way the aggregator tier can fail to produce data (null
client, thrown request, missing `data`); `some d` a response carrying `d`. -/
structure SwapEnv where
  price : PriceFetchEnv
  pool : PoolFetchEnv
  panora : Option PanoraData

/-- `SwapService.getBestSwapRoute` (src/services/swapService.ts, lines
69-173).  If the aggregator response holds at least one route the top one is
mapped into a `SwapRoute` and the rest into `alternativeRoutes`; otherwise
the call falls through to `getFallbackSwapRoute`.  Every exception inside
the tiers is caught (the outer catch that would call
`generateFallbackSwapRoute` directly is unreachable for supported tokens),
so the function is total: it returns a route for every environment. -/
def getBestSwapRoute (log10 : ℚ → ℚ) (env : SwapEnv) (now : ℤ)
    (tokenIn tokenOut : Token) (amount : ℚ) (ps : PriceState) (pools : PoolState) :
    SwapRoute × PriceState × PoolState :=
  match env.panora with
  | some d =>
    match d.routes with
    | bestRoute :: restRoutes =>
      ({ fromToken := tokenIn, toToken := tokenOut, fromAmount := amount,
         expectedOutput := d.toTokenAmount.getD 0,
         priceImpact := d.priceImpact.getD (1/2),
         estimatedGas := d.estimatedGas.getD (1/10000),
         dex := bestRoute.name.getD "Aptos DEX",
         protocol := bestRoute.name.getD "Aptos DEX Aggregator",
         hasPayload := d.hasPayload,
         alternativeRoutes := restRoutes.map fun r =>
           ⟨r.name.getD "Aptos DEX", r.toTokenAmount.getD 0,
            r.priceImpact.getD (1/2), r.estimatedGas.getD (1/5000)⟩ },
       ps, pools)
    | [] => getFallbackSwapRoute log10 env.price env.pool now tokenIn tokenOut amount ps pools
  | none => getFallbackSwapRoute log10 env.price env.pool now tokenIn tokenOut amount ps pools

/-- Well-formed swap environment: prices and TVLs from upstream are
non-negative and the aggregator never reports a negative top output. -/
def SwapEnv.WF (env : SwapEnv) : Prop :=
  env.price.WF ∧ env.pool.WF ∧
    ∀ d, env.panora = some d → ∀ x, d.toTokenAmount = some x → 0 ≤ x

/-! ### Properties of the descending sort and of the fan-out selector -/

/-- "Descending by output": the relation the sorted quote list satisfies. -/
def qge (a b : DexQuote) : Prop := b.outputAmount ≤ a.outputAmount

/-! ### DeFiService: network-mode switch and testnet exchange rates
(src/services/defiService.ts) -/

def mainnetUrl : String := "https://fullnode.mainnet.aptoslabs.com/v1"

def testnetUrl : String := "https://fullnode.testnet.aptoslabs.com/v1"

/-- `DeFiService.testnetRatesCache`: key is the ordered pair behind the
string `tokenIn + "-" + tokenOut` (token names contain no dash, so the key
is in bijection with the pair), value `{rate, timestamp}`. -/
abbrev RatesCache := List ((Token × Token) × ℚ × ℤ)

/-- `DeFiService.TESTNET_RATES_CACHE_DURATION` (1 minute, in ms). -/
def TESTNET_RATES_CACHE_DURATION : ℤ := 60000

/-- `Map.get` on the testnet rates cache. -/
def lookupRate (c : RatesCache) (k : Token × Token) : Option (ℚ × ℤ) :=
  (c.find? fun e => e.1 = k).map fun e => e.2

/-- `Map.set` on the testnet rates cache. -/
def insertRate (c : RatesCache) (k : Token × Token) (v : ℚ × ℤ) : RatesCache :=
  (k, v) :: c.filter fun e => e.1 ≠ k

/-- The combined per-service mutable state that `DeFiService.setTestnetMode`
can reach: the DeFi/Swap/Dex mode flags and network URLs (the recreated
Aptos/Panora clients are functions of the URL), the three service caches,
and DeFiService's own testnet-rate and market-data caches.  The market-data
payload itself is irrelevant to the claims, so it is modelled opaquely. -/
structure AppState where
  defiIsTestnet : Bool
  defiNetworkUrl : String
  swapIsTestnet : Bool
  swapNetworkUrl : String
  dexIsTestnet : Bool
  priceState : PriceState
  poolState : PoolState
  testnetRatesCache : RatesCache
  marketDataCache : Option Unit
  marketDataTimestamp : ℤ

/-- `DeFiService.setTestnetMode` (src/services/defiService.ts, lines 59-75)
together with the `setTestnetMode` it calls on SwapService (which sets its
flag/URL and recreates the Panora client; src/services/swapService.ts,
lines 46-64) and on DexService (which only sets its flag; src/unnamed/
part_000, lines 31-33).  The cleared caches are exactly
`testnetRatesCache` and the market-data cache; neither
`PriceService.priceCache` nor `DexService.poolCache` is touched. -/
def setTestnetMode (isTestnet : Bool) (st : AppState) : AppState :=
  { st with
    defiIsTestnet := isTestnet
    defiNetworkUrl := if isTestnet then testnetUrl else mainnetUrl
    swapIsTestnet := isTestnet
    swapNetworkUrl := if isTestnet then testnetUrl else mainnetUrl
    dexIsTestnet := isTestnet
    testnetRatesCache := []
    marketDataCache := none
    marketDataTimestamp := 0 }

/-- Network-dependent inputs of one `getTestnetExchangeRate` call.
`pancakeReserves = some (reserveX, reserveY)` models a successful
`getAccountResources` call in which the APT-DevnetUSDC `TokenPairReserve`
resource is found with those reserves; `none` models a thrown query or a
missing resource. -/
structure RateEnv where
  price : PriceFetchEnv
  pool : PoolFetchEnv
  pancakeReserves : Option (ℚ × ℚ)

/-- One step of the `bestRate` loop over the fan-out quotes
(src/services/defiService.ts, lines 104-109): take any present quote whose
parsed `outputAmount` strictly exceeds the current best. -/
def bestRateStep (b : ℚ) (oq : Option DexQuote) : ℚ :=
  match oq with
  | some q => if b < q.outputAmount then q.outputAmount else b
  | none => b

/-- The `bestRate` loop over the fan-out quotes, starting at 0. -/
def bestQuoteRate (quotes : List (Option DexQuote)) : ℚ :=
  quotes.foldl bestRateStep 0

/-- The reserve-derived rate (src/services/defiService.ts, lines 118-144):
`reserve_y / reserve_x` for APT→USDC and `reserve_x / reserve_y` for the
reverse direction; 0 when the query failed or the resource is absent.
Domain caveat: when the divisor reserve is 0 the source's JS division yields
`Infinity` (or `NaN` for 0/0), which is then cached and returned because the
`bestRate === 0` check does not catch it; those values have no rational
counterpart (in ℚ, division by zero gives 0, which would instead route to
the hard-coded fallback), so every theorem about this path assumes a found
resource has strictly positive reserves and proves nothing about the
zero-reserve inputs. -/
def reserveRate (tokenIn tokenOut : Token) (reserves : Option (ℚ × ℚ)) : ℚ :=
  match reserves with
  | some rr => if tokenIn = .APT ∧ tokenOut = .USDC then rr.2 / rr.1 else rr.1 / rr.2
  | none => 0

/-- The fallback steps of the `bestRate` cascade after the fan-out
(src/services/defiService.ts, lines 112-156): the reserve-derived rate only
for the APT/USDC pair when the best rate is still 0, then the hard-coded
fallback rates when it is still 0. -/
def testnetRateFrom (tokenIn tokenOut : Token) (bestRate0 : ℚ)
    (reserves : Option (ℚ × ℚ)) : ℚ :=
  let bestRate1 :=
    if bestRate0 = 0 then
      if (tokenIn = .APT ∧ tokenOut = .USDC) ∨ (tokenIn = .USDC ∧ tokenOut = .APT) then
        reserveRate tokenIn tokenOut reserves
      else 0
    else bestRate0
  if bestRate1 = 0 then
    if tokenIn = .APT ∧ tokenOut = .USDC then 58034/1000
    else if tokenIn = .USDC ∧ tokenOut = .APT then 172/10000
    else 10
  else bestRate1

/-- The body of `getTestnetExchangeRate` after a cache miss
(src/services/defiService.ts, lines 96-181): fan-out with amount 1, then —
only for the APT/USDC pair and only if the best rate is still 0 — the direct
PancakeSwap reserve query, then the hard-coded fallback rates, then the
cache insert.  The outer catch computes the same fallback rates and also
caches them, so the function never rejects either way. -/
def getTestnetRateFetch (log10 : ℚ → ℚ) (env : RateEnv) (now : ℤ)
    (tokenIn tokenOut : Token) (rates : RatesCache) (ps : PriceState)
    (pools : PoolState) : ℚ × (RatesCache × PriceState × PoolState) × Bool :=
  let r := getAllDexQuotes log10 env.price env.pool now tokenIn tokenOut 1 ps pools
  let bestRate := testnetRateFrom tokenIn tokenOut (bestQuoteRate r.1) env.pancakeReserves
  (bestRate, (insertRate rates (tokenIn, tokenOut) (bestRate, now), r.2.1, r.2.2), true)

/-- `DeFiService.getTestnetExchangeRate` (src/services/defiService.ts, lines
81-182).  Returns `(rate, (rates cache, price cache, pool cache), whether
the DEX fan-out was queried)`. -/
def getTestnetExchangeRate (log10 : ℚ → ℚ) (env : RateEnv) (now : ℤ)
    (tokenIn tokenOut : Token) (rates : RatesCache) (ps : PriceState)
    (pools : PoolState) : ℚ × (RatesCache × PriceState × PoolState) × Bool :=
  match lookupRate rates (tokenIn, tokenOut) with
  | some rts =>
    if now - rts.2 < TESTNET_RATES_CACHE_DURATION then (rts.1, (rates, ps, pools), false)
    else getTestnetRateFetch log10 env now tokenIn tokenOut rates ps pools
  | none => getTestnetRateFetch log10 env now tokenIn tokenOut rates ps pools

/-! ### The rate limiter's timing behaviour (PriceService.withRateLimit,
src/services/lendingService.ts, lines 428-438) -/

/-- `PriceService.API_RATE_LIMIT` (1.1 seconds, in ms). -/
def API_RATE_LIMIT : ℤ := 1100

/-- One caller of `withRateLimit` from a batch that all enter the limiter at
time `t0` (N concurrent cold lookups), processed in entry order by the event
loop.  Each caller reads the shared `lastApiCall` (`acc.1`): a caller whose
gap is at least the limit fires immediately at `t0` and writes the
timestamp before suspending, while a caller inside the window schedules a
wake at the deadline `lastApiCall + 1100` computed from the value it read
and only writes `lastApiCall` when it wakes — so a later entrant that runs
before that wake still reads the old timestamp.  `acc.2` collects the
upstream fire times. -/
def rateLimitStep (t0 : ℤ) (acc : ℤ × List ℤ) (_i : ℕ) : ℤ × List ℤ :=
  if t0 - acc.1 < API_RATE_LIMIT then (acc.1, acc.2 ++ [acc.1 + API_RATE_LIMIT])
  else (t0, acc.2 ++ [t0])

/-- Upstream fire times of `n` concurrent cold callers entering the limiter
at `t0` with stored timestamp `last0`. -/
def concurrentFireTimes (n : ℕ) (t0 last0 : ℤ) : List ℤ :=
  ((List.range n).foldl (rateLimitStep t0) (last0, [])).2

/-- `withRateLimit` for a fully serialised caller: entering at time `s` with
stored timestamp `last`, the upstream call fires at `last + 1100` after the
`setTimeout` wait when inside the window, at `s` immediately otherwise; the
fired time is written back to `lastApiCall`. -/
def seqFireTime (last s : ℤ) : ℤ :=
  if s - last < API_RATE_LIMIT then last + API_RATE_LIMIT else s

/-- Fire times of a sequence of serialised callers with entry times `ss`
(each enters only after the previous upstream call has fired). -/
def seqFireTimes (last0 : ℤ) : List ℤ → List ℤ
  | [] => []
  | s :: ss => seqFireTime last0 s :: seqFireTimes (seqFireTime last0 s) ss

/-! ### The two amount formatters -/

/-- `SwapService.formatTokenAmount` (src/services/swapService.ts, lines
401-406): `(amount * 10^decimals).toFixed(0)`; the returned integer string
is modelled by its value. -/
def swapFormatTokenAmount (amount : ℚ) (decimals : ℕ) : ℤ :=
  Int.floor (amount * 10 ^ decimals + 1/2)

/-- `DexService.formatTokenAmount` (src/unnamed/part_000, lines 305-326):
`Math.floor(parseFloat(amount) * 10^decimals).toString()`; the `amount`
string is modelled by the number it parses to and the returned integer
string by its value. -/
def dexFormatTokenAmount (amount : ℚ) (decimals : ℕ) : ℤ :=
  Int.floor (amount * 10 ^ decimals)

/-- The slippage divisor as the specification words it (§4.3 step 5):
`slippageFactor = min(0.1, amountUsd / max(tvlUsd, 1_000_000))`.  Stated
only to compare against the source's `slippageFactor`. -/
def specSlippageFactor (amountUsd tvlUsd : ℚ) : ℚ :=
  min (1/10) (amountUsd / max tvlUsd 1000000)

/-! ### Concrete states and environments used by witnesses and
counterexamples -/

/-- A fresh process: empty price cache. -/
def emptyPriceState : PriceState := ⟨fun _ => none⟩

/-- A fresh process: empty pool cache. -/
def emptyPoolState : PoolState := ⟨[], 0⟩

/-- Environment in which every network dependency fails: the aggregator tier
produces no data, every price fetch rejects, every pool fetch rejects. -/
def allFailSwapEnv : SwapEnv := ⟨⟨fun _ => none⟩, ⟨fun _ => none⟩, none⟩

/-- A price-fetch environment whose upstream always answers 1 USD. -/
def onePriceEnv : PriceFetchEnv := ⟨fun _ => some 1⟩

/-- A pool cache holding one healthy PancakeSwap snapshot (TVL 2,000,000). -/
def examplePoolCache : List (String × PoolData) := [("PancakeSwap", ⟨some 2000000⟩)]

/-- A pool cache whose PancakeSwap snapshot has TVL 500,000 — positive but
below 1,000,000, the case where the claimed and the implemented slippage
divisors differ. -/
def lowTVLPoolCache : List (String × PoolData) := [("PancakeSwap", ⟨some 500000⟩)]

/-- The quote the Synthetic DEX Quoter produces for the TVL-500,000
PancakeSwap pool and a 30,000-USD trade at prices 1/1 (with `log10`
instantiated to the zero function): output 25303.86, price impact 6.00. -/
def exampleLowQuote : DexQuote :=
  { dex := DexKey.PANCAKE, dexName := "PancakeSwap", outputAmount := 2530386/100,
    priceImpact := 6, feePercent := 3/10,
    dexUrl := "https://pancakeswap.finance/aptos/swap", gasEstimate := 2/10000 }

/-! ### Claim C3 -/

/-- A state in mainnet mode whose price cache holds a fresh APT entry
(fetched at t = 500,000), whose pool cache holds a snapshot, and whose
testnet-rate and market-data caches are populated. -/
def exampleAppState : AppState :=
  { defiIsTestnet := false
    defiNetworkUrl := mainnetUrl
    swapIsTestnet := false
    swapNetworkUrl := mainnetUrl
    dexIsTestnet := false
    priceState := ⟨fun t => if t = Token.APT then some (7, 500000) else none⟩
    poolState := ⟨[("PancakeSwap", ⟨some 2000000⟩)], 500000⟩
    testnetRatesCache := [((Token.APT, Token.USDC), 58034/1000, 500000)]
    marketDataCache := some ()
    marketDataTimestamp := 500000 }

/-- A synthetic quote from DEX `k` with output `out` (price impact 0.5). -/
def mkQuote (k : DexKey) (out : ℚ) : DexQuote :=
  ⟨k, (APTOS_DEXES k).name, out, 1/2, (APTOS_DEXES k).fee * 100, (APTOS_DEXES k).url,
   (APTOS_DEXES k).gasEstimate⟩

/-- The fan-out result of property P5: outputs 5, 12, 3 with one absent. -/
def exampleFanout : List (Option DexQuote) :=
  [some (mkQuote .PANCAKE 5), none, some (mkQuote .LIQUIDSWAP 12), some (mkQuote .AUX 3)]

/-- The route the selector produces for `exampleFanout`: primary output 12,
alternatives 5 then 3. -/
def exampleRoute : SwapRoute :=
  { fromToken := Token.APT, toToken := Token.USDC, fromAmount := 10,
    expectedOutput := 12, priceImpact := 1/2, estimatedGas := 25/100000,
    dex := "Liquidswap", protocol := "Liquidswap", hasPayload := false,
    alternativeRoutes := [⟨"PancakeSwap", 5, 1/2, 2/10000⟩,
                          ⟨"AUX Exchange", 3, 1/2, 22/100000⟩] }

/-- The all-failing environment for the testnet-rate path. -/
def allFailRateEnv : RateEnv := ⟨⟨fun _ => none⟩, ⟨fun _ => none⟩, none⟩

theorem fallbackPrice_pos (t : Token) : 0 < fallbackPrice t := by
  cases t <;> norm_num [fallbackPrice]

theorem getTokenPriceWithCache_nonneg {env : PriceFetchEnv} {st : PriceState}
    (henv : env.WF) (hst : st.WF) (now : ℤ) (token : Token) :
    0 ≤ (getTokenPriceWithCache env now token st).1 ∧
      ((getTokenPriceWithCache env now token st).2.1).WF := by
  unfold getTokenPriceWithCache
  cases hc : st.cache token with
  | some e =>
    obtain ⟨p, ts⟩ := e
    by_cases hfresh : now - ts < CACHE_DURATION
    · simp only [hfresh, if_pos]
      exact ⟨hst _ _ _ hc, hst⟩
    · simp only [hfresh, if_neg, if_false]
      cases hf : env.fetchPrice token with
      | some price =>
        refine ⟨henv _ _ hf, ?_⟩
        intro t q ts' hq
        by_cases ht : t = token
        · simp only [ht, if_pos, if_true] at hq
          cases hq
          exact henv _ _ hf
        · simp only [ht, if_neg, if_false] at hq
          exact hst _ _ _ hq
      | none => exact ⟨hst _ _ _ hc, hst⟩
  | none =>
    cases hf : env.fetchPrice token with
    | some price =>
      refine ⟨henv _ _ hf, ?_⟩
      intro t q ts' hq
      by_cases ht : t = token
      · simp only [ht, if_pos, if_true] at hq
        cases hq
        exact henv _ _ hf
      · simp only [ht, if_neg, if_false] at hq
        exact hst _ _ _ hq
    | none => exact ⟨le_of_lt (fallbackPrice_pos token), hst⟩

theorem fetchPoolData_WF {env : PoolFetchEnv} {st : PoolState}
    (henv : env.WF) (hst : st.WF) (now : ℤ) : (fetchPoolData env now st).WF := by
  unfold fetchPoolData
  split
  · exact hst
  · intro e he
    simp only [List.mem_filterMap, Option.map_eq_some'] at he
    obtain ⟨k, -, pd, hpd, rfl⟩ := he
    exact henv _ _ hpd

theorem lookupPool_WF {c : List (String × PoolData)} {name : String} {pd : PoolData}
    (hc : poolCacheWF c) (h : lookupPool c name = some pd) : pd.WF := by
  unfold lookupPool at h
  simp only [Option.map_eq_some'] at h
  obtain ⟨e, he, hpd⟩ := h
  subst hpd
  exact hc _ (List.mem_of_find?_eq_some he)

theorem poolTVLof_nonneg {pd : PoolData} (h : pd.WF) : 0 ≤ poolTVLof pd := by
  unfold poolTVLof
  cases htvl : pd.tvl with
  | some t =>
    by_cases ht : t = 0
    · simp [ht]
    · simp only [ht, if_neg, if_false]
      exact h _ htvl
  | none => simp

theorem slippageFactor_mem {amountUsd poolTVL : ℚ}
    (ha : 0 ≤ amountUsd) (ht : 0 ≤ poolTVL) :
    0 ≤ slippageFactor amountUsd poolTVL ∧ slippageFactor amountUsd poolTVL ≤ 1/10 := by
  unfold slippageFactor
  constructor
  · apply le_min
    · norm_num
    · apply div_nonneg ha
      split
      · norm_num
      · rename_i h
        exact ht
  · exact min_le_left _ _

theorem toFixedQ_nonneg (f : ℕ) {x : ℚ} (hx : 0 ≤ x) : 0 ≤ toFixedQ f x := by
  unfold toFixedQ
  apply div_nonneg _ (by positivity)
  have : (0 : ℤ) ≤ Int.floor (x * 10 ^ f + 1/2) := by
    apply Int.le_floor.mpr
    push_cast
    positivity
  exact_mod_cast this

theorem toFixedQ_two_le_ten {x : ℚ} (hx : x ≤ 10) : toFixedQ 2 x ≤ 10 := by
  unfold toFixedQ
  rw [div_le_iff₀ (by norm_num)]
  have h1 : x * 10 ^ 2 + 1/2 < ((1001 : ℤ) : ℚ) := by push_cast; nlinarith
  have h3 : Int.floor (x * 10 ^ 2 + 1/2) ≤ (1000 : ℤ) := by
    have := Int.floor_lt.mpr h1
    omega
  calc ((Int.floor (x * 10 ^ 2 + 1/2) : ℤ) : ℚ) ≤ (1000 : ℚ) := by exact_mod_cast h3
    _ = 10 * 10 ^ 2 := by norm_num

/-- The per-DEX fee is a fraction in `[0, 1)`. -/
theorem dexFee_mem (k : DexKey) : 0 ≤ (APTOS_DEXES k).fee ∧ (APTOS_DEXES k).fee < 1 := by
  cases k <;> norm_num [APTOS_DEXES]

theorem dexQuoteCore_bounds {log10 : ℚ → ℚ} {poolCache : List (String × PoolData)}
    {dexKey : DexKey} {amount pIn pOut : ℚ} {q : DexQuote}
    (hcache : poolCacheWF poolCache) (hamount : 0 ≤ amount)
    (hpIn : 0 ≤ pIn) (hpOut : 0 ≤ pOut)
    (hq : dexQuoteCore log10 poolCache dexKey amount pIn pOut = some q) :
    0 ≤ q.outputAmount ∧ 0 ≤ q.priceImpact ∧ q.priceImpact ≤ 10 := by
  unfold dexQuoteCore at hq
  cases hpool : lookupPool poolCache (APTOS_DEXES dexKey).name with
  | none =>
    simp only [hpool] at hq
    split at hq <;> simp_all
  | some pd =>
    simp only [hpool] at hq
    split at hq
    · simp_all
    · rw [Option.some_inj] at hq
      subst hq
      have htvl : 0 ≤ poolTVLof pd := poolTVLof_nonneg (lookupPool_WF hcache hpool)
      have hsf := slippageFactor_mem (mul_nonneg hamount hpIn) htvl
      have hfee := dexFee_mem dexKey
      have hlf : 0 ≤ (if poolTVLof pd = 0 then (1 : ℚ)
          else min 1 (max (9/10) (log10 (poolTVLof pd) / log10 1000000))) := by
        split
        · norm_num
        · exact le_min (by norm_num) (le_trans (by norm_num) (le_max_left _ _))
      refine ⟨?_, ?_, ?_⟩
      · apply toFixedQ_nonneg
        have h1 : 0 ≤ amount * pIn / pOut := by positivity
        have h2 : 0 ≤ 1 - slippageFactor (amount * pIn) (poolTVLof pd) := by
          linarith [hsf.2]
        have h3 : 0 ≤ amount * (1 - (APTOS_DEXES dexKey).fee) / amount :=
          div_nonneg (mul_nonneg hamount (by linarith [hfee.2])) hamount
        exact mul_nonneg (mul_nonneg (mul_nonneg h1 hlf) h2) h3
      · apply toFixedQ_nonneg
        nlinarith [hsf.1]
      · apply toFixedQ_two_le_ten
        nlinarith [hsf.2]

theorem dexQuoteCore_impact_le_ten {log10 : ℚ → ℚ}
    {poolCache : List (String × PoolData)} {dexKey : DexKey}
    {amount pIn pOut : ℚ} {q : DexQuote}
    (hq : dexQuoteCore log10 poolCache dexKey amount pIn pOut = some q) :
    q.priceImpact ≤ 10 := by
  unfold dexQuoteCore at hq
  cases hpool : lookupPool poolCache (APTOS_DEXES dexKey).name with
  | none =>
    simp only [hpool] at hq
    split at hq <;> simp_all
  | some pd =>
    simp only [hpool] at hq
    split at hq
    · simp_all
    · rw [Option.some_inj] at hq
      subst hq
      apply toFixedQ_two_le_ten
      have hs : slippageFactor (amount * pIn) (poolTVLof pd) ≤ 1/10 := min_le_left _ _
      nlinarith [hs]

theorem insertQuoteDesc_perm (q : DexQuote) (l : List DexQuote) :
    List.Perm (insertQuoteDesc q l) (q :: l) := by
  induction l with
  | nil => rfl
  | cons x xs ih =>
    unfold insertQuoteDesc
    split
    · rfl
    · exact (ih.cons x).trans (List.Perm.swap q x xs)

theorem sortQuotesDesc_perm (l : List DexQuote) : List.Perm (sortQuotesDesc l) l := by
  induction l with
  | nil => rfl
  | cons x xs ih => exact (insertQuoteDesc_perm x _).trans (ih.cons x)

theorem insertQuoteDesc_sorted {q : DexQuote} {l : List DexQuote}
    (hl : List.Pairwise qge l) : List.Pairwise qge (insertQuoteDesc q l) := by
  induction l with
  | nil => simp [insertQuoteDesc, qge]
  | cons x xs ih =>
    rw [List.pairwise_cons] at hl
    obtain ⟨hx, hxs⟩ := hl
    unfold insertQuoteDesc
    split
    · rename_i hlt
      refine List.Pairwise.cons ?_ (List.Pairwise.cons hx hxs)
      intro b hb
      rcases List.mem_cons.mp hb with rfl | hb2
      · exact le_of_lt hlt
      · exact le_trans (hx b hb2) (le_of_lt hlt)
    · rename_i hnlt
      refine List.Pairwise.cons ?_ (ih hxs)
      intro b hb
      rcases List.mem_cons.mp ((insertQuoteDesc_perm q xs).mem_iff.mp hb) with rfl | hb2
      · exact not_lt.mp hnlt
      · exact hx b hb2

theorem sortQuotesDesc_sorted (l : List DexQuote) :
    List.Pairwise qge (sortQuotesDesc l) := by
  induction l with
  | nil => constructor
  | cons x xs ih => exact insertQuoteDesc_sorted ih

theorem selectFromQuotes_none_iff (tokenIn tokenOut : Token) (amount : ℚ)
    (allQuotes : List (Option DexQuote)) :
    selectFromQuotes tokenIn tokenOut amount allQuotes = none ↔
      allQuotes.reduceOption = [] := by
  unfold selectFromQuotes
  cases hsort : sortQuotesDesc allQuotes.reduceOption with
  | nil =>
    have hperm := sortQuotesDesc_perm allQuotes.reduceOption
    rw [hsort] at hperm
    simp only [hsort]
    simp [hperm.symm.eq_nil]
  | cons best rest =>
    have hperm := sortQuotesDesc_perm allQuotes.reduceOption
    rw [hsort] at hperm
    simp only [hsort, reduceCtorEq, false_iff]
    intro hnil
    rw [hnil] at hperm
    exact absurd hperm.eq_nil (by simp)

theorem selectFromQuotes_spec {tokenIn tokenOut : Token} {amount : ℚ}
    {allQuotes : List (Option DexQuote)} {r : SwapRoute}
    (hr : selectFromQuotes tokenIn tokenOut amount allQuotes = some r) :
    (∀ q ∈ allQuotes.reduceOption, q.outputAmount ≤ r.expectedOutput) ∧
      List.Pairwise (fun a b : ℚ => b ≤ a)
        (r.expectedOutput :: r.alternativeRoutes.map fun a => a.expectedOutput) ∧
      List.Perm (r.expectedOutput :: r.alternativeRoutes.map fun a => a.expectedOutput)
        (allQuotes.reduceOption.map fun q => q.outputAmount) := by
  unfold selectFromQuotes at hr
  cases hsort : sortQuotesDesc allQuotes.reduceOption with
  | nil =>
    simp only [hsort] at hr
    exact absurd hr (by simp)
  | cons best rest =>
    simp only [hsort] at hr
    rw [Option.some_inj] at hr
    subst hr
    have hperm := sortQuotesDesc_perm allQuotes.reduceOption
    rw [hsort] at hperm
    have hs := sortQuotesDesc_sorted allQuotes.reduceOption
    rw [hsort] at hs
    rw [List.pairwise_cons] at hs
    refine ⟨?_, ?_, ?_⟩
    · intro q hq
      rcases List.mem_cons.mp (hperm.symm.mem_iff.mp hq) with rfl | hq2
      · exact le_refl _
      · exact hs.1 q hq2
    · simp only [List.map_map]
      refine List.Pairwise.cons ?_ ?_
      · intro b hb
        simp only [List.mem_map] at hb
        obtain ⟨q, hq, rfl⟩ := hb
        exact hs.1 q hq
      · exact hs.2.map _ (fun a b hab => hab)
    · simp only [List.map_map]
      exact hperm.map fun q => q.outputAmount

/-! ### Non-negativity of every produced quote and route -/

theorem getDexQuote_bounds (log10 : ℚ → ℚ) (penv : PriceFetchEnv) (now : ℤ)
    (poolCache : List (String × PoolData)) (k : DexKey) (tokenIn tokenOut : Token)
    (amount : ℚ) (ps : PriceState)
    (henv : penv.WF) (hcache : poolCacheWF poolCache) (hamount : 0 ≤ amount)
    (hst : ps.WF) :
    ((getDexQuote log10 penv now poolCache k tokenIn tokenOut amount ps).2).WF ∧
      ∀ q, (getDexQuote log10 penv now poolCache k tokenIn tokenOut amount ps).1 = some q →
        0 ≤ q.outputAmount ∧ 0 ≤ q.priceImpact ∧ q.priceImpact ≤ 10 := by
  unfold getDexQuote
  have h1 := getTokenPriceWithCache_nonneg henv hst now tokenIn
  have h2 := getTokenPriceWithCache_nonneg henv h1.2 now tokenOut
  exact ⟨h2.2, fun q hq => dexQuoteCore_bounds hcache hamount h1.1 h2.1 hq⟩

theorem quotesLoop_bounds (log10 : ℚ → ℚ) (penv : PriceFetchEnv) (now : ℤ)
    (poolCache : List (String × PoolData)) (tokenIn tokenOut : Token) (amount : ℚ)
    (henv : penv.WF) (hcache : poolCacheWF poolCache) (hamount : 0 ≤ amount) :
    ∀ (ks : List DexKey) (ps : PriceState), ps.WF →
      ((quotesLoop log10 penv now poolCache tokenIn tokenOut amount ks ps).2).WF ∧
      ∀ oq ∈ (quotesLoop log10 penv now poolCache tokenIn tokenOut amount ks ps).1,
        ∀ q, oq = some q → 0 ≤ q.outputAmount ∧ 0 ≤ q.priceImpact ∧ q.priceImpact ≤ 10 := by
  intro ks
  induction ks with
  | nil =>
    intro ps hps
    exact ⟨hps, by simp [quotesLoop]⟩
  | cons k ks ih =>
    intro ps hps
    have hk := getDexQuote_bounds log10 penv now poolCache k tokenIn tokenOut amount ps
      henv hcache hamount hps
    have hrest := ih _ hk.1
    simp only [quotesLoop]
    refine ⟨hrest.1, ?_⟩
    intro oq hoq q hq
    rcases List.mem_cons.mp hoq with rfl | h2
    · exact hk.2 q hq
    · exact hrest.2 oq h2 q hq

theorem getAllDexQuotes_bounds (log10 : ℚ → ℚ) (penv : PriceFetchEnv)
    (poolEnv : PoolFetchEnv) (now : ℤ) (tokenIn tokenOut : Token) (amount : ℚ)
    (ps : PriceState) (pools : PoolState)
    (henv : penv.WF) (hpoolenv : poolEnv.WF) (hamount : 0 ≤ amount)
    (hps : ps.WF) (hpools : pools.WF) :
    ((getAllDexQuotes log10 penv poolEnv now tokenIn tokenOut amount ps pools).2.1).WF ∧
      ((getAllDexQuotes log10 penv poolEnv now tokenIn tokenOut amount ps pools).2.2).WF ∧
      ∀ oq ∈ (getAllDexQuotes log10 penv poolEnv now tokenIn tokenOut amount ps pools).1,
        ∀ q, oq = some q → 0 ≤ q.outputAmount ∧ 0 ≤ q.priceImpact ∧ q.priceImpact ≤ 10 := by
  unfold getAllDexQuotes
  have hpc : (fetchPoolData poolEnv now pools).WF := fetchPoolData_WF hpoolenv hpools now
  have h := quotesLoop_bounds log10 penv now (fetchPoolData poolEnv now pools).poolCache
    tokenIn tokenOut amount henv hpc hamount dexKeys ps hps
  exact ⟨h.1, hpc, h.2⟩

theorem generateFallbackSwapRoute_nonneg (penv : PriceFetchEnv) (now : ℤ)
    (tokenIn tokenOut : Token) (amount : ℚ) (ps : PriceState)
    (henv : penv.WF) (hps : ps.WF) (hamount : 0 ≤ amount) :
    0 ≤ (generateFallbackSwapRoute penv now tokenIn tokenOut amount ps).1.expectedOutput := by
  unfold generateFallbackSwapRoute
  have h1 := getTokenPriceWithCache_nonneg henv hps now tokenIn
  have h2 := getTokenPriceWithCache_nonneg henv h1.2 now tokenOut
  apply toFixedQ_nonneg
  have ha : 0 ≤ (if (getTokenPriceWithCache penv now tokenIn ps).1 = 0 then 1
      else (getTokenPriceWithCache penv now tokenIn ps).1) := by
    split
    · norm_num
    · exact h1.1
  have hb : 0 ≤ (if (getTokenPriceWithCache penv now tokenOut
        (getTokenPriceWithCache penv now tokenIn ps).2.1).1 = 0 then 1
      else (getTokenPriceWithCache penv now tokenOut
        (getTokenPriceWithCache penv now tokenIn ps).2.1).1) := by
    split
    · norm_num
    · exact h2.1
  exact div_nonneg (mul_nonneg hamount ha) hb

theorem getFallbackSwapRoute_nonneg (log10 : ℚ → ℚ) (penv : PriceFetchEnv)
    (poolEnv : PoolFetchEnv) (now : ℤ) (tokenIn tokenOut : Token) (amount : ℚ)
    (ps : PriceState) (pools : PoolState)
    (hpenv : penv.WF) (hpoolenv : poolEnv.WF) (hamount : 0 ≤ amount)
    (hps : ps.WF) (hpools : pools.WF) :
    0 ≤ (getFallbackSwapRoute log10 penv poolEnv now tokenIn tokenOut amount ps pools).1.expectedOutput := by
  unfold getFallbackSwapRoute
  have hall := getAllDexQuotes_bounds log10 penv poolEnv now tokenIn tokenOut amount ps pools
    hpenv hpoolenv hamount hps hpools
  cases hsel : selectFromQuotes tokenIn tokenOut amount
      (getAllDexQuotes log10 penv poolEnv now tokenIn tokenOut amount ps pools).1 with
  | some route =>
    simp only [hsel]
    have hspec := selectFromQuotes_spec hsel
    have hmem : route.expectedOutput ∈
        ((getAllDexQuotes log10 penv poolEnv now tokenIn tokenOut amount ps pools).1.reduceOption.map
          fun q => q.outputAmount) :=
      hspec.2.2.mem_iff.mp (List.mem_cons_self _ _)
    obtain ⟨q, hq, hqe⟩ := List.mem_map.mp hmem
    have hq2 := hall.2.2 (some q) (List.reduceOption_mem_iff.mp hq) q rfl
    rw [← hqe]
    exact hq2.1
  | none =>
    simp only [hsel]
    exact generateFallbackSwapRoute_nonneg penv now tokenIn tokenOut amount _ hpenv hall.1 hamount

theorem getBestSwapRoute_nonneg (log10 : ℚ → ℚ) (env : SwapEnv) (now : ℤ)
    (tokenIn tokenOut : Token) (amount : ℚ) (ps : PriceState) (pools : PoolState)
    (henv : env.WF) (hamount : 0 ≤ amount) (hps : ps.WF) (hpools : pools.WF) :
    0 ≤ (getBestSwapRoute log10 env now tokenIn tokenOut amount ps pools).1.expectedOutput := by
  obtain ⟨hprice, hpool, hpanora⟩ := henv
  unfold getBestSwapRoute
  cases hp : env.panora with
  | some d =>
    simp only [hp]
    cases hroutes : d.routes with
    | cons bestRoute restRoutes =>
      simp only [hroutes]
      cases ht : d.toTokenAmount with
      | some x =>
        simpa [ht] using hpanora d hp x ht
      | none => simp [ht]
    | nil =>
      simp only [hroutes]
      exact getFallbackSwapRoute_nonneg log10 env.price env.pool now tokenIn tokenOut amount
        ps pools hprice hpool hamount hps hpools
  | none =>
    simp only [hp]
    exact getFallbackSwapRoute_nonneg log10 env.price env.pool now tokenIn tokenOut amount
      ps pools hprice hpool hamount hps hpools

theorem emptyPriceState_WF : emptyPriceState.WF := by
  intro t p ts h
  simp [emptyPriceState] at h

theorem emptyPoolState_WF : emptyPoolState.WF := by
  intro e he
  simp [emptyPoolState] at he

theorem allFailSwapEnv_WF : allFailSwapEnv.WF := by
  refine ⟨?_, ?_, ?_⟩
  · intro t p h
    simp [allFailSwapEnv] at h
  · intro k pd h
    simp [allFailSwapEnv] at h
  · intro d h
    simp [allFailSwapEnv] at h

theorem onePriceEnv_WF : onePriceEnv.WF := by
  intro t p h
  simp only [onePriceEnv] at h
  cases h
  norm_num

theorem examplePoolCache_WF : poolCacheWF examplePoolCache := by
  intro e he
  rcases List.mem_singleton.mp he with rfl
  intro t ht
  simp only [examplePoolCache] at ht
  cases ht
  norm_num

/-! ### Claim C1 -/

/-- C1 counterexample: the claim quantifies over every amount string, but
for the amount string "-5" (which `parseFloat` reads as -5) with all
dependencies failing, `getBestSwapRoute('APT','USDC','-5')` returns the
fallback route with `expectedOutput` "-33.750000", which parses as a
negative number. -/
theorem C1_counterexample :
    (getBestSwapRoute (fun _ => 0) allFailSwapEnv 1000000 Token.APT Token.USDC (-5)
        emptyPriceState emptyPoolState).1.expectedOutput = -135/4 ∧
      ¬ (0 ≤ (getBestSwapRoute (fun _ => 0) allFailSwapEnv 1000000 Token.APT Token.USDC (-5)
        emptyPriceState emptyPoolState).1.expectedOutput) := by
  have hfloor : Int.floor ((-5 : ℚ) * (27/4) / 1 * 10 ^ 6 + 1/2) = -33750000 := by
    apply Int.floor_eq_iff.mpr
    constructor <;> norm_num
  have h : (getBestSwapRoute (fun _ => 0) allFailSwapEnv 1000000 Token.APT Token.USDC (-5)
      emptyPriceState emptyPoolState).1.expectedOutput = -135/4 := by
    norm_num [getBestSwapRoute, allFailSwapEnv, getFallbackSwapRoute, getAllDexQuotes,
      fetchPoolData, dexKeys, quotesLoop, getDexQuote, getTokenPriceWithCache,
      emptyPriceState, emptyPoolState, fallbackPrice, dexQuoteCore, lookupPool,
      selectFromQuotes, sortQuotesDesc, generateFallbackSwapRoute, POOL_CACHE_DURATION,
      CACHE_DURATION, APTOS_DEXES, toFixedQ, hfloor]
  refine ⟨h, ?_⟩
  rw [h]
  norm_num

/-- C1 (amended): for supported tokens with tokenIn ≠ tokenOut and an amount
string parsing to a strictly positive number, `getBestSwapRoute` never
throws — it is total over every environment, however the aggregator, pool
and price dependencies fail, because each tier's exception is caught and the
terminal fallback synthesizer always produces a route — and whenever the
upstream data that does arrive is well-formed the returned route's
`expectedOutput` is non-negative. -/
theorem C1_route_total_nonneg (log10 : ℚ → ℚ) (env : SwapEnv) (now : ℤ)
    (tokenIn tokenOut : Token) (amount : ℚ) (ps : PriceState) (pools : PoolState)
    (_hne : tokenIn ≠ tokenOut) (hamount : 0 < amount) (henv : env.WF)
    (hps : ps.WF) (hpools : pools.WF) :
    0 ≤ (getBestSwapRoute log10 env now tokenIn tokenOut amount ps pools).1.expectedOutput :=
  getBestSwapRoute_nonneg log10 env now tokenIn tokenOut amount ps pools henv
    (le_of_lt hamount) hps hpools

/-- Witness for C1: the amended theorem applied to APT→USDC, amount 10, with
every dependency failing. -/
theorem C1_route_total_nonneg_witness :
    0 ≤ (getBestSwapRoute (fun _ => 0) allFailSwapEnv 1000000 Token.APT Token.USDC 10
        emptyPriceState emptyPoolState).1.expectedOutput :=
  C1_route_total_nonneg (fun _ => 0) allFailSwapEnv 1000000 Token.APT Token.USDC 10
    emptyPriceState emptyPoolState (by decide) (by norm_num) allFailSwapEnv_WF
    emptyPriceState_WF emptyPoolState_WF

/-! ### Claim C2 -/

/-- C2 counterexample: for a pool with TVL 500,000 (positive but below
1,000,000) and a trade worth 30,000 USD, the quoter's priceImpact is 6.00
(slippage 30000/500000 = 0.06), while the claimed formula
min(0.1, amountUsd / max(tvlUsd, 1,000,000)) gives 0.03, i.e. 3.00: the
implemented divisor is the TVL itself, not max(tvl, 1,000,000). -/
theorem C2_counterexample :
    ((dexQuoteCore (fun _ => 0) lowTVLPoolCache DexKey.PANCAKE 30000 1 1).map
        fun q => q.priceImpact) = some 6 ∧
      toFixedQ 2 (specSlippageFactor (30000 * 1) 500000 * 100) = 3 ∧
      (6 : ℚ) ≠ 3 := by
  have hsf : slippageFactor 30000 500000 = 3/50 := by
    unfold slippageFactor
    rw [if_neg (by norm_num), min_eq_right (by norm_num)]
    norm_num
  have hpi : toFixedQ 2 6 = 6 := by
    unfold toFixedQ
    rw [show Int.floor ((6 : ℚ) * 10 ^ 2 + 1/2) = 600 from
      Int.floor_eq_iff.mpr (by constructor <;> norm_num)]
    norm_num
  have hspec : specSlippageFactor 30000 500000 = 3/100 := by
    unfold specSlippageFactor
    rw [max_eq_right (by norm_num), min_eq_right (by norm_num)]
    norm_num
  have hpi3 : toFixedQ 2 3 = 3 := by
    unfold toFixedQ
    rw [show Int.floor ((3 : ℚ) * 10 ^ 2 + 1/2) = 300 from
      Int.floor_eq_iff.mpr (by constructor <;> norm_num)]
    norm_num
  refine ⟨?_, ?_, by norm_num⟩
  · norm_num [dexQuoteCore, lowTVLPoolCache, lookupPool, poolTVLof, APTOS_DEXES, hsf, hpi]
  · norm_num [hspec, hpi3]

/-- C2 (amended): the slippage factor the Synthetic DEX Quoter applies is
min(0.1, amountUsd / tvlUsd) with divisor the pool's own TVL whenever the
TVL field is present and nonzero — even when it is below 1,000,000 — and
min(0.1, amountUsd / 1,000,000) only when the TVL is absent or zero; the
quote's priceImpactPercent is that factor times 100, rounded to 2
decimals. -/
theorem C2_slippage_divisor (log10 : ℚ → ℚ) (poolCache : List (String × PoolData))
    (k : DexKey) (amount pIn pOut : ℚ) (pd : PoolData) (q : DexQuote)
    (hpool : lookupPool poolCache (APTOS_DEXES k).name = some pd)
    (hq : dexQuoteCore log10 poolCache k amount pIn pOut = some q) :
    q.priceImpact = toFixedQ 2 (slippageFactor (amount * pIn) (poolTVLof pd) * 100) ∧
      (poolTVLof pd ≠ 0 →
        slippageFactor (amount * pIn) (poolTVLof pd) =
          min (1/10) (amount * pIn / poolTVLof pd)) ∧
      (poolTVLof pd = 0 →
        slippageFactor (amount * pIn) (poolTVLof pd) =
          min (1/10) (amount * pIn / 1000000)) := by
  unfold dexQuoteCore at hq
  simp only [hpool] at hq
  split at hq
  · exact absurd hq (by simp)
  · rw [Option.some_inj] at hq
    subst hq
    refine ⟨rfl, ?_, ?_⟩
    · intro h
      unfold slippageFactor
      rw [if_neg h]
    · intro h
      unfold slippageFactor
      rw [if_pos h]

theorem exampleLowQuote_eq :
    dexQuoteCore (fun _ => 0) lowTVLPoolCache DexKey.PANCAKE 30000 1 1 =
      some exampleLowQuote := by
  have hsf : slippageFactor 30000 500000 = 3/50 := by
    unfold slippageFactor
    rw [if_neg (by norm_num), min_eq_right (by norm_num)]
    norm_num
  have hpi : toFixedQ 2 6 = 6 := by
    unfold toFixedQ
    rw [show Int.floor ((6 : ℚ) * 10 ^ 2 + 1/2) = 600 from
      Int.floor_eq_iff.mpr (by constructor <;> norm_num)]
    norm_num
  have hout : toFixedQ 6 (1265193/50) = 1265193/50 := by
    unfold toFixedQ
    rw [show Int.floor ((1265193/50 : ℚ) * 10 ^ 6 + 1/2) = 25303860000 from
      Int.floor_eq_iff.mpr (by constructor <;> norm_num)]
    norm_num
  norm_num [dexQuoteCore, lowTVLPoolCache, lookupPool, poolTVLof, APTOS_DEXES, hsf, hpi,
    exampleLowQuote, min_def, max_def, hout]

/-- Witness for C2: the amended theorem applied to the TVL-500,000 pool. -/
theorem C2_slippage_divisor_witness :
    exampleLowQuote.priceImpact =
        toFixedQ 2 (slippageFactor (30000 * 1) (poolTVLof ⟨some 500000⟩) * 100) ∧
      slippageFactor (30000 * 1) (poolTVLof ⟨some 500000⟩) =
        min (1/10) (30000 * 1 / poolTVLof ⟨some 500000⟩) := by
  have h := C2_slippage_divisor (fun _ => 0) lowTVLPoolCache DexKey.PANCAKE 30000 1 1
    ⟨some 500000⟩ exampleLowQuote rfl exampleLowQuote_eq
  exact ⟨h.1, h.2.1 (by norm_num [poolTVLof])⟩

/-- C3 counterexample: after switching the network mode at a state whose
price cache holds an APT entry fetched 100 s earlier, the next APT price
lookup is served from the cache — price 7, no upstream call, even though the
upstream would answer 9 — and the pool cache still holds its old snapshot:
the switch does not clear the price or pool caches, so a lookup after a
switch does not always perform a fresh upstream fetch. -/
theorem C3_counterexample :
    (getTokenPriceWithCache ⟨fun _ => some 9⟩ 600000 Token.APT
        (setTestnetMode true exampleAppState).priceState).2.2 = false ∧
      (getTokenPriceWithCache ⟨fun _ => some 9⟩ 600000 Token.APT
        (setTestnetMode true exampleAppState).priceState).1 = 7 ∧
      (setTestnetMode true exampleAppState).poolState = exampleAppState.poolState := by
  exact ⟨by decide, by decide, by decide⟩

/-- C3 (amended): switching the network mode via setTestnetMode updates the
mode flags and network URLs/clients of the DeFi, Swap and Dex services and
clears the testnet-rate cache and the market-data cache, but it does not
touch the price cache or the pool cache: entries cached before the switch
are still served afterwards until their own TTLs lapse. -/
theorem C3_switch_frame (b : Bool) (st : AppState) :
    (setTestnetMode b st).defiIsTestnet = b ∧
      (setTestnetMode b st).swapIsTestnet = b ∧
      (setTestnetMode b st).dexIsTestnet = b ∧
      (setTestnetMode b st).defiNetworkUrl = (if b then testnetUrl else mainnetUrl) ∧
      (setTestnetMode b st).swapNetworkUrl = (if b then testnetUrl else mainnetUrl) ∧
      (setTestnetMode b st).testnetRatesCache = [] ∧
      (setTestnetMode b st).marketDataCache = none ∧
      (setTestnetMode b st).marketDataTimestamp = 0 ∧
      (setTestnetMode b st).priceState = st.priceState ∧
      (setTestnetMode b st).poolState = st.poolState :=
  ⟨rfl, rfl, rfl, rfl, rfl, rfl, rfl, rfl, rfl, rfl⟩

/-! ### Claim C4 -/

/-- C4 counterexample: the claim quantifies over every amount, but for the
amount -5 (as parsed from "-5"), prices 1/1 and a present PancakeSwap pool
with TVL 2,000,000 (`log10` instantiated to the zero function), the quoter
returns a quote whose outputAmount is the negative value -4.486511, so
outputAmount is not always non-negative. -/
theorem C4_counterexample :
    ((dexQuoteCore (fun _ => 0) examplePoolCache DexKey.PANCAKE (-5) 1 1).map
        fun q => q.outputAmount) = some (-4486511/1000000) ∧
      ¬ (0 ≤ (-4486511/1000000 : ℚ)) := by
  have hsf : slippageFactor (-5) 2000000 = -1/400000 := by
    unfold slippageFactor
    rw [if_neg (by norm_num), min_eq_right (by norm_num)]
    norm_num
  have hout : toFixedQ 6 (-(3589208973/800000000) : ℚ) = -(4486511/1000000) := by
    unfold toFixedQ
    rw [show Int.floor ((-(3589208973/800000000) : ℚ) * 10 ^ 6 + 1/2) = -4486511 from
      Int.floor_eq_iff.mpr (by constructor <;> norm_num)]
    norm_num
  refine ⟨?_, by norm_num⟩
  norm_num [dexQuoteCore, examplePoolCache, lookupPool, poolTVLof, APTOS_DEXES, min_def,
    max_def, hsf, hout]

/-- C4 (amended): for every DEX, token pair, amount, fetch environment and
cache state, any quote returned by the Synthetic DEX Quoter has
priceImpactPercent at most 10.00 — the min(0.1, ·) cap applies
unconditionally; when the amount is strictly positive and the upstream
prices and TVLs are non-negative, its outputAmount and priceImpactPercent
are moreover non-negative (for negative amounts the quoter returns negative
outputs, see the counterexample). -/
theorem C4_quote_bounds (log10 : ℚ → ℚ) (penv : PriceFetchEnv) (now : ℤ)
    (poolCache : List (String × PoolData)) (k : DexKey) (tokenIn tokenOut : Token)
    (amount : ℚ) (ps : PriceState) (q : DexQuote)
    (henv : penv.WF) (hps : ps.WF) (hcache : poolCacheWF poolCache)
    (hq : (getDexQuote log10 penv now poolCache k tokenIn tokenOut amount ps).1 = some q) :
    q.priceImpact ≤ 10 ∧
      (0 < amount → 0 ≤ q.outputAmount ∧ 0 ≤ q.priceImpact) := by
  constructor
  · have hq' : dexQuoteCore log10 poolCache k amount
        (getTokenPriceWithCache penv now tokenIn ps).1
        (getTokenPriceWithCache penv now tokenOut
          (getTokenPriceWithCache penv now tokenIn ps).2.1).1 = some q := hq
    exact dexQuoteCore_impact_le_ten hq'
  · intro hamount
    have h := (getDexQuote_bounds log10 penv now poolCache k tokenIn tokenOut amount ps
      henv hcache (le_of_lt hamount) hps).2 q hq
    exact ⟨h.1, h.2.1⟩

theorem lowTVLPoolCache_WF : poolCacheWF lowTVLPoolCache := by
  intro e he
  rcases List.mem_singleton.mp he with rfl
  intro t ht
  simp only [lowTVLPoolCache] at ht
  cases ht
  norm_num

theorem exampleLowQuote_getDexQuote :
    (getDexQuote (fun _ => 0) onePriceEnv 0 lowTVLPoolCache DexKey.PANCAKE Token.APT
        Token.USDC 30000 emptyPriceState).1 = some exampleLowQuote := by
  have h : (getDexQuote (fun _ => 0) onePriceEnv 0 lowTVLPoolCache DexKey.PANCAKE Token.APT
      Token.USDC 30000 emptyPriceState).1 =
      dexQuoteCore (fun _ => 0) lowTVLPoolCache DexKey.PANCAKE 30000 1 1 := by
    simp [getDexQuote, getTokenPriceWithCache, onePriceEnv, emptyPriceState]
  rw [h]
  exact exampleLowQuote_eq

/-- Witness for C4: the amended theorem applied to the TVL-500,000
PancakeSwap pool with both prices fetched as 1 and amount 30,000. -/
theorem C4_quote_bounds_witness :
    exampleLowQuote.priceImpact ≤ 10 ∧ 0 ≤ exampleLowQuote.outputAmount ∧
      0 ≤ exampleLowQuote.priceImpact := by
  have h := C4_quote_bounds (fun _ => 0) onePriceEnv 0 lowTVLPoolCache DexKey.PANCAKE
    Token.APT Token.USDC 30000 emptyPriceState exampleLowQuote onePriceEnv_WF
    emptyPriceState_WF lowTVLPoolCache_WF exampleLowQuote_getDexQuote
  exact ⟨h.1, (h.2 (by norm_num)).1, (h.2 (by norm_num)).2⟩

/-! ### Claim C5 -/

/-- C5: in the DEX fan-out tier, the Route Selector treats an empty list of
present quotes as tier failure (`none`), and otherwise returns a route whose
primary expectedOutput is the maximum outputAmount of all present quotes and
whose primary-then-alternatives output sequence is exactly the present
quotes' outputs sorted in descending order (a permutation of them, sorted
descending). -/
theorem C5_fanout_selection (tokenIn tokenOut : Token) (amount : ℚ)
    (allQuotes : List (Option DexQuote)) :
    (selectFromQuotes tokenIn tokenOut amount allQuotes = none ↔
      allQuotes.reduceOption = []) ∧
      ∀ r, selectFromQuotes tokenIn tokenOut amount allQuotes = some r →
        (∀ q ∈ allQuotes.reduceOption, q.outputAmount ≤ r.expectedOutput) ∧
          List.Pairwise (fun a b : ℚ => b ≤ a)
            (r.expectedOutput :: r.alternativeRoutes.map fun a => a.expectedOutput) ∧
          List.Perm (r.expectedOutput :: r.alternativeRoutes.map fun a => a.expectedOutput)
            (allQuotes.reduceOption.map fun q => q.outputAmount) :=
  ⟨selectFromQuotes_none_iff tokenIn tokenOut amount allQuotes,
   fun _ hr => selectFromQuotes_spec hr⟩

theorem exampleFanout_selected :
    selectFromQuotes Token.APT Token.USDC 10 exampleFanout = some exampleRoute := by
  norm_num [selectFromQuotes, exampleFanout, sortQuotesDesc, insertQuoteDesc, mkQuote,
    APTOS_DEXES, exampleRoute, List.reduceOption_cons_of_some,
    List.reduceOption_cons_of_none, List.reduceOption_nil]

/-- Witness for C5: the theorem applied to the fan-out outputs [5, –, 12, 3]
selects 12 as primary with descending alternatives. -/
theorem C5_fanout_selection_witness :
    exampleRoute.expectedOutput = 12 ∧
      (∀ q ∈ exampleFanout.reduceOption, q.outputAmount ≤ exampleRoute.expectedOutput) ∧
      List.Pairwise (fun a b : ℚ => b ≤ a)
        (exampleRoute.expectedOutput ::
          exampleRoute.alternativeRoutes.map fun a => a.expectedOutput) := by
  have h := (C5_fanout_selection Token.APT Token.USDC 10 exampleFanout).2 exampleRoute
    exampleFanout_selected
  exact ⟨rfl, h.1, h.2.1⟩

/-! ### Claim C6 -/

/-- C6: with the aggregator failing and the fan-out producing no quotes (and
the price fetches failing, so the static defaults APT = 6.75 and USDC = 1
apply), `getBestSwapRoute('APT','USDC','10')` returns the fallback route:
expectedOutput 67.5 (the 6-decimal string "67.500000"), primary DEX and
protocol "PancakeSwap", price impact 0.5, gas estimate 0.0002, and exactly
one synthetic alternative ("Liquidswap") whose expectedOutput 67.1625 is
99.5 % of the primary output. -/
theorem C6_degradation_chain :
    (getBestSwapRoute (fun _ => 0) allFailSwapEnv 1000000 Token.APT Token.USDC 10
        emptyPriceState emptyPoolState).1 =
      { fromToken := Token.APT, toToken := Token.USDC, fromAmount := 10,
        expectedOutput := 135/2, priceImpact := 1/2, estimatedGas := 1/5000,
        dex := "PancakeSwap", protocol := "PancakeSwap", hasPayload := false,
        alternativeRoutes := [⟨"Liquidswap", 5373/80, 7/10, 1/4000⟩] } ∧
      fixedString 6 (135/2) = "67.500000" ∧
      (5373/80 : ℚ) = (995/1000) * (135/2) := by
  have hf1 : toFixedQ 6 (135/2 : ℚ) = 135/2 := by
    unfold toFixedQ
    rw [show Int.floor ((135/2 : ℚ) * 10 ^ 6 + 1/2) = 67500000 from
      Int.floor_eq_iff.mpr (by constructor <;> norm_num)]
    norm_num
  have hf2 : toFixedQ 6 (5373/80 : ℚ) = 5373/80 := by
    unfold toFixedQ
    rw [show Int.floor ((5373/80 : ℚ) * 10 ^ 6 + 1/2) = 67162500 from
      Int.floor_eq_iff.mpr (by constructor <;> norm_num)]
    norm_num
  refine ⟨?_, ?_, by norm_num⟩
  · norm_num [getBestSwapRoute, allFailSwapEnv, getFallbackSwapRoute, getAllDexQuotes,
      fetchPoolData, dexKeys, quotesLoop, getDexQuote, getTokenPriceWithCache,
      emptyPriceState, emptyPoolState, fallbackPrice, dexQuoteCore, lookupPool,
      selectFromQuotes, sortQuotesDesc, generateFallbackSwapRoute, POOL_CACHE_DURATION,
      CACHE_DURATION, APTOS_DEXES, hf1, hf2]
  · unfold fixedString
    rw [show Int.floor ((135/2 : ℚ) * 10 ^ 6 + 1/2) = 67500000 from
      Int.floor_eq_iff.mpr (by constructor <;> norm_num)]
    decide

/-! ### Claim C7 -/

theorem getTokenPriceWithCache_hit (env : PriceFetchEnv) {now : ℤ} {token : Token}
    {st : PriceState} {p : ℚ} {ts : ℤ} (hc : st.cache token = some (p, ts))
    (hfresh : now - ts < CACHE_DURATION) :
    getTokenPriceWithCache env now token st = (p, st, false) := by
  unfold getTokenPriceWithCache
  simp [hc, hfresh]

theorem getTokenPriceWithCache_fetch_success (env : PriceFetchEnv) {now : ℤ}
    {token : Token} {st : PriceState} {p : ℚ}
    (hmiss : ∀ q ts, st.cache token = some (q, ts) → CACHE_DURATION ≤ now - ts)
    (hfetch : env.fetchPrice token = some p) :
    getTokenPriceWithCache env now token st =
      (p, ⟨fun t => if t = token then some (p, now) else st.cache t⟩, true) := by
  unfold getTokenPriceWithCache
  cases hc : st.cache token with
  | none => simp [hfetch]
  | some e =>
    have hnot : ¬ (now - e.2 < CACHE_DURATION) := not_lt.mpr (hmiss e.1 e.2 (by rw [hc]))
    simp [hc, hnot, hfetch]

theorem getTokenPriceWithCache_calls_true (env : PriceFetchEnv) {now : ℤ}
    {token : Token} {st : PriceState}
    (hmiss : ∀ q ts, st.cache token = some (q, ts) → CACHE_DURATION ≤ now - ts) :
    (getTokenPriceWithCache env now token st).2.2 = true := by
  unfold getTokenPriceWithCache
  cases hc : st.cache token with
  | none => cases hf : env.fetchPrice token <;> simp [hf]
  | some e =>
    have hnot : ¬ (now - e.2 < CACHE_DURATION) := not_lt.mpr (hmiss e.1 e.2 (by rw [hc]))
    cases hf : env.fetchPrice token <;> simp [hc, hnot, hf]

/-- C7: if a price lookup at time t1 misses (no cache entry, or a stale one)
and its upstream fetch succeeds with price p, then that lookup issues an
upstream call and caches (p, t1); a second lookup for the same symbol within
5 minutes of t1 is served from the cache — it returns p, changes nothing and
issues no upstream call, whatever its own fetch environment — so the two
lookups issue at most one upstream call in total; and a lookup 5 minutes or
more after t1 issues exactly one new upstream call. -/
theorem C7_cache_freshness (env1 env2 : PriceFetchEnv) (t1 t2 : ℤ) (tok : Token)
    (p : ℚ) (st0 : PriceState)
    (hmiss : ∀ q ts, st0.cache tok = some (q, ts) → CACHE_DURATION ≤ t1 - ts)
    (hfetch : env1.fetchPrice tok = some p) :
    (getTokenPriceWithCache env1 t1 tok st0).2.2 = true ∧
      (getTokenPriceWithCache env1 t1 tok st0).1 = p ∧
      (t2 - t1 < CACHE_DURATION →
        getTokenPriceWithCache env2 t2 tok (getTokenPriceWithCache env1 t1 tok st0).2.1 =
          (p, (getTokenPriceWithCache env1 t1 tok st0).2.1, false)) ∧
      (CACHE_DURATION ≤ t2 - t1 →
        (getTokenPriceWithCache env2 t2 tok
          (getTokenPriceWithCache env1 t1 tok st0).2.1).2.2 = true) := by
  have h1 := getTokenPriceWithCache_fetch_success env1 hmiss hfetch
  rw [h1]
  have hcache1 : (⟨fun t => if t = tok then some (p, t1) else st0.cache t⟩ :
      PriceState).cache tok = some (p, t1) := by simp
  refine ⟨rfl, rfl, ?_, ?_⟩
  · intro hfresh
    exact getTokenPriceWithCache_hit env2 hcache1 hfresh
  · intro hstale
    apply getTokenPriceWithCache_calls_true
    intro q ts hq
    rw [hcache1] at hq
    simp only [Option.some_inj, Prod.mk.injEq] at hq
    obtain ⟨-, rfl⟩ := hq
    exact hstale

/-- Witness for C7: a cold lookup at t = 0 fetching price 5, then a lookup
at t = 1 whose environment cannot even reach the network (fetch always
fails) that is still served the cached 5 with no upstream call. -/
theorem C7_cache_freshness_witness :
    (getTokenPriceWithCache ⟨fun _ => some 5⟩ 0 Token.APT emptyPriceState).2.2 = true ∧
      getTokenPriceWithCache ⟨fun _ => none⟩ 1 Token.APT
          (getTokenPriceWithCache ⟨fun _ => some 5⟩ 0 Token.APT emptyPriceState).2.1 =
        (5, (getTokenPriceWithCache ⟨fun _ => some 5⟩ 0 Token.APT emptyPriceState).2.1,
          false) := by
  have h := C7_cache_freshness ⟨fun _ => some 5⟩ ⟨fun _ => none⟩ 0 1 Token.APT 5
    emptyPriceState (fun q ts hq => absurd hq (by simp [emptyPriceState])) rfl
  exact ⟨h.1, h.2.2.1 (by norm_num [CACHE_DURATION])⟩

/-! ### Claim C8 -/

/-- C8 counterexample: three concurrent price lookups with a cold cache all
entering the rate limiter at t0 = 10000 produce upstream calls at times
10000, 11100 and 11100 — the second and third callers both read the same
`lastApiCall` before either wrote it, slept to the same deadline, and fired
simultaneously.  The upstream calls are not pairwise spaced ≥ 1.1 s. -/
theorem C8_counterexample :
    concurrentFireTimes 3 10000 0 = [10000, 11100, 11100] ∧
      ¬ List.Pairwise (fun a b : ℤ => API_RATE_LIMIT ≤ |b - a|)
        (concurrentFireTimes 3 10000 0) := by
  refine ⟨by decide, by decide⟩

theorem seqFireTime_ge (last s : ℤ) : last + API_RATE_LIMIT ≤ seqFireTime last s := by
  unfold seqFireTime
  split
  · exact le_refl _
  · rename_i h
    omega

/-- C8 (amended): the shared `lastApiCall` timestamp only spaces a call at
least 1.1 s after the timestamp value the caller read on entering the
limiter.  For serialised callers — each entering only after the previous
upstream call fired and wrote the timestamp — consecutive upstream calls are
spaced ≥ 1.1 s apart, whatever their entry times; concurrent callers that
read the timestamp before another caller updates it are not serialised (see
the counterexample). -/
theorem C8_sequential_spacing (last0 : ℤ) (ss : List ℤ) :
    List.Chain' (fun a b => a + API_RATE_LIMIT ≤ b) (seqFireTimes last0 ss) := by
  induction ss generalizing last0 with
  | nil => simp [seqFireTimes]
  | cons s ss ih =>
    rw [seqFireTimes, List.chain'_cons']
    refine ⟨?_, ih _⟩
    intro b hb
    cases ss with
    | nil => simp [seqFireTimes] at hb
    | cons s2 ss2 =>
      rw [seqFireTimes] at hb
      simp only [List.head?_cons, Option.mem_def, Option.some_inj] at hb
      subst hb
      exact seqFireTime_ge _ _

/-! ### Claim C9 -/

theorem bestRateStep_ge (b : ℚ) (oq : Option DexQuote) : b ≤ bestRateStep b oq := by
  unfold bestRateStep
  cases oq with
  | none => exact le_refl b
  | some q =>
    dsimp only
    split
    · rename_i h
      exact le_of_lt h
    · exact le_refl b

theorem foldl_bestRateStep_ge (l : List (Option DexQuote)) :
    ∀ b : ℚ, b ≤ List.foldl bestRateStep b l := by
  induction l with
  | nil => intro b; exact le_refl b
  | cons x xs ih => intro b; exact le_trans (bestRateStep_ge b x) (ih _)

theorem bestQuoteRate_nonneg (quotes : List (Option DexQuote)) :
    0 ≤ bestQuoteRate quotes :=
  foldl_bestRateStep_ge quotes 0

theorem reserveRate_nonneg {reserves : Option (ℚ × ℚ)} (tokenIn tokenOut : Token)
    (hres : ∀ r0 r1 : ℚ, reserves = some (r0, r1) → 0 < r0 ∧ 0 < r1) :
    0 ≤ reserveRate tokenIn tokenOut reserves := by
  unfold reserveRate
  cases hr : reserves with
  | none => exact le_refl 0
  | some rr =>
    have hr2 := hres rr.1 rr.2 (by rw [hr])
    dsimp only
    split
    · exact div_nonneg (le_of_lt hr2.2) (le_of_lt hr2.1)
    · exact div_nonneg (le_of_lt hr2.1) (le_of_lt hr2.2)

theorem rateFallbackStep_pos (tokenIn tokenOut : Token) (b1 : ℚ) (h1 : 0 ≤ b1) :
    0 < if b1 = 0 then
        (if tokenIn = .APT ∧ tokenOut = .USDC then (58034/1000 : ℚ)
         else if tokenIn = .USDC ∧ tokenOut = .APT then 172/10000 else 10)
      else b1 := by
  split
  · split
    · norm_num
    · split
      · norm_num
      · norm_num
  · rename_i hne
    exact lt_of_le_of_ne h1 (Ne.symm hne)

theorem testnetRateFrom_pos (tokenIn tokenOut : Token) (bestRate0 : ℚ)
    (reserves : Option (ℚ × ℚ)) (h0 : 0 ≤ bestRate0)
    (hres : ∀ r0 r1 : ℚ, reserves = some (r0, r1) → 0 < r0 ∧ 0 < r1) :
    0 < testnetRateFrom tokenIn tokenOut bestRate0 reserves := by
  have h1 : 0 ≤ (if bestRate0 = 0 then
      if (tokenIn = .APT ∧ tokenOut = .USDC) ∨ (tokenIn = .USDC ∧ tokenOut = .APT) then
        reserveRate tokenIn tokenOut reserves
      else 0
    else bestRate0) := by
    split
    · split
      · exact reserveRate_nonneg tokenIn tokenOut hres
      · exact le_refl 0
    · exact h0
  exact rateFallbackStep_pos tokenIn tokenOut _ h1

theorem lookupRate_insert (c : RatesCache) (k : Token × Token) (v : ℚ × ℤ) :
    lookupRate (insertRate c k v) k = some v := by
  unfold lookupRate insertRate
  rw [List.find?_cons_of_pos _ (by simp)]
  rfl

theorem getTestnetExchangeRate_miss {log10 : ℚ → ℚ} {env : RateEnv} {now : ℤ}
    {tokenIn tokenOut : Token} {rates : RatesCache} {ps : PriceState} {pools : PoolState}
    (hmiss : ∀ v ts, lookupRate rates (tokenIn, tokenOut) = some (v, ts) →
      TESTNET_RATES_CACHE_DURATION ≤ now - ts) :
    getTestnetExchangeRate log10 env now tokenIn tokenOut rates ps pools =
      getTestnetRateFetch log10 env now tokenIn tokenOut rates ps pools := by
  unfold getTestnetExchangeRate
  cases hc : lookupRate rates (tokenIn, tokenOut) with
  | none => simp only [hc]
  | some e =>
    have hnot : ¬ (now - e.2 < TESTNET_RATES_CACHE_DURATION) :=
      not_lt.mpr (hmiss e.1 e.2 (by rw [hc]))
    simp [hc, hnot]

/-- C9: for every token pair, over every combination of upstream failures
(all price fetches, pool fetches and the reserve query may fail), a
`getTestnetExchangeRate` call that misses the rate cache never rejects — it
is total by construction — and returns a strictly positive rate (hard-coded
fallbacks such as 58.034 for APT→USDC and 10 for unlisted pairs included),
finite by the hypothesis that a found reserve resource has strictly positive
reserves (with a zero reserve the source's division yields the non-finite
`Infinity`/`NaN`, which has no rational counterpart — see `reserveRate`);
the returned rate is stored in the testnet-rate cache with the call's
timestamp, so a second call for the same ordered pair within 60 seconds
returns the identical rate, leaves every cache unchanged, and does not query
any DEX. -/
theorem C9_testnet_rate (log10 : ℚ → ℚ) (env : RateEnv) (now : ℤ)
    (tokenIn tokenOut : Token) (rates : RatesCache) (ps : PriceState)
    (pools : PoolState)
    (hres : ∀ r0 r1 : ℚ, env.pancakeReserves = some (r0, r1) → 0 < r0 ∧ 0 < r1)
    (hmiss : ∀ v ts, lookupRate rates (tokenIn, tokenOut) = some (v, ts) →
      TESTNET_RATES_CACHE_DURATION ≤ now - ts) :
    0 < (getTestnetExchangeRate log10 env now tokenIn tokenOut rates ps pools).1 ∧
      (getTestnetExchangeRate log10 env now tokenIn tokenOut rates ps pools).2.2 = true ∧
      ∀ t2, t2 - now < TESTNET_RATES_CACHE_DURATION →
        getTestnetExchangeRate log10 env t2 tokenIn tokenOut
            (getTestnetExchangeRate log10 env now tokenIn tokenOut rates ps pools).2.1.1
            (getTestnetExchangeRate log10 env now tokenIn tokenOut rates ps pools).2.1.2.1
            (getTestnetExchangeRate log10 env now tokenIn tokenOut rates ps pools).2.1.2.2 =
          ((getTestnetExchangeRate log10 env now tokenIn tokenOut rates ps pools).1,
            ((getTestnetExchangeRate log10 env now tokenIn tokenOut rates ps pools).2.1.1,
              (getTestnetExchangeRate log10 env now tokenIn tokenOut rates ps pools).2.1.2.1,
              (getTestnetExchangeRate log10 env now tokenIn tokenOut rates ps pools).2.1.2.2),
            false) := by
  rw [getTestnetExchangeRate_miss hmiss]
  refine ⟨?_, rfl, ?_⟩
  · exact testnetRateFrom_pos tokenIn tokenOut _ env.pancakeReserves
      (bestQuoteRate_nonneg _) hres
  · intro t2 ht2
    unfold getTestnetExchangeRate
    rw [show (getTestnetRateFetch log10 env now tokenIn tokenOut rates ps pools).2.1.1 =
      insertRate rates (tokenIn, tokenOut)
        ((getTestnetRateFetch log10 env now tokenIn tokenOut rates ps pools).1, now)
      from rfl]
    rw [lookupRate_insert]
    simp [ht2]

/-- Witness for C9: APT→USDC with every dependency failing and a cold cache;
the call returns a positive rate (58.034) and flags the DEX query. -/
theorem C9_testnet_rate_witness :
    0 < (getTestnetExchangeRate (fun _ => 0) allFailRateEnv 0 Token.APT Token.USDC []
        emptyPriceState emptyPoolState).1 ∧
      (getTestnetExchangeRate (fun _ => 0) allFailRateEnv 0 Token.APT Token.USDC []
        emptyPriceState emptyPoolState).2.2 = true := by
  have h := C9_testnet_rate (fun _ => 0) allFailRateEnv 0 Token.APT Token.USDC []
    emptyPriceState emptyPoolState
    (fun r0 r1 hr => absurd hr (by simp [allFailRateEnv]))
    (fun v ts hv => absurd hv (by simp [lookupRate]))
  exact ⟨h.1, h.2.1⟩

/-! ### Claim C10 -/

/-- C10 counterexample: for the amount string "1.5" (which parses exactly to
3/2) with 0 decimals, DexService.formatTokenAmount floors to "1" while
SwapService.formatTokenAmount rounds via toFixed(0) to "2": the two
utilities do not agree on every parseable amount. -/
theorem C10_counterexample :
    dexFormatTokenAmount (3/2) 0 = 1 ∧ swapFormatTokenAmount (3/2) 0 = 2 ∧
      (1 : ℤ) ≠ 2 := by
  refine ⟨?_, ?_, by norm_num⟩
  · unfold dexFormatTokenAmount
    rw [show ((3/2 : ℚ) * 10 ^ 0) = 3/2 by norm_num]
    exact Int.floor_eq_iff.mpr (by constructor <;> norm_num)
  · unfold swapFormatTokenAmount
    rw [show ((3/2 : ℚ) * 10 ^ 0 + 1/2) = 2 by norm_num]
    exact Int.floor_eq_iff.mpr (by constructor <;> norm_num)

/-- C10 (amended): the two amount formatters agree exactly on the amounts
whose scaled value `amount * 10^decimals` is an integer (then both return
that integer, the smallest-unit value); otherwise DexService floors while
SwapService rounds half-up, and the results can differ by one (see the
counterexample). -/
theorem C10_formatters_agree (amount : ℚ) (decimals : ℕ) (n : ℤ)
    (h : amount * 10 ^ decimals = (n : ℚ)) :
    dexFormatTokenAmount amount decimals = n ∧
      swapFormatTokenAmount amount decimals = n := by
  unfold dexFormatTokenAmount swapFormatTokenAmount
  rw [h]
  constructor
  · exact Int.floor_intCast n
  · apply Int.floor_eq_iff.mpr
    constructor
    · linarith [show (0 : ℚ) < 1/2 by norm_num]
    · norm_num

/-- Witness for C10: both formatters send 5 tokens with 6 decimals to the
smallest-unit value 5,000,000. -/
theorem C10_formatters_agree_witness :
    dexFormatTokenAmount 5 6 = 5000000 ∧ swapFormatTokenAmount 5 6 = 5000000 :=
  C10_formatters_agree 5 6 5000000 (by norm_num)

end DefiAgg
